import Mathlib

/-!
Verification of the control loop of the iot-dashboard appliance (`src/main.py`):
the time-gated cadence scheduler of the main loop, the fail-fast error
escalation routine `exit_if_process_fails`, and the rename-based self-update
bootstrap `update_firmware`.

The embedding is shallow: the scheduler's mutable loop variables
(`previous_day`, `previous_hour`, `previous_minute`, `data_can_be_updated`,
`perform_update_check`) become an explicit state record threaded through a
step function; the side-effecting calls of the error and update routines
become an explicit effect trace; SD-card storage becomes a map from file
names to contents, with `os.rename` as the only mutation.

External fallible collaborators (network checks, time sync, download/verify)
are represented by their reported outcomes; inside the main loop they are
modelled on their success path, since any reported failure resets the device
and so ends the sequence of processed ticks.
-/

namespace IotDashboard

/-- Fields of the time tuple that the loop reads (indices `T_DAY`, `T_HOUR`,
`T_MINUTE`, `T_SECOND` in `main.py`). -/
structure Timestamp where
  day : Nat
  hour : Nat
  minute : Nat
  second : Nat
deriving DecidableEq, Repr

/-- Range constraints of a real clock reading. -/
def Timestamp.Valid (t : Timestamp) : Prop :=
  t.hour < 24 ∧ t.minute < 60 ∧ t.second < 60

instance (t : Timestamp) : Decidable t.Valid := by
  unfold Timestamp.Valid; infer_instance

/-- The five-minute phase `(t[T_MINUTE] - 1) % 5` of lines 164 and 171.
Python's `%` on a negative left operand agrees with `Int.emod`:
`(0 - 1) % 5 = 4`. -/
def phase (m : Nat) : Int := ((m : Int) - 1) % 5

/-- Line 164-165: `if (t[T_MINUTE] - 1) % 5 != 0 and not data_can_be_updated:
data_can_be_updated = True`. -/
def armStep (flag : Bool) (t : Timestamp) : Bool :=
  if phase t.minute ≠ 0 ∧ flag = false then true else flag

/-- Lines 164-172, the five-minute window logic: first the arming statement,
then the firing condition `data_can_be_updated and t[T_SECOND] >= 1 and
(t[T_MINUTE] - 1) % 5 == 0`.  Returns the new flag and whether the
five-minute data refresh fired on this tick. -/
def fiveStep (flag : Bool) (t : Timestamp) : Bool × Bool :=
  if armStep flag t = true ∧ 1 ≤ t.second ∧ phase t.minute = 0
  then (false, true)
  else (armStep flag t, false)

/-- The `data_can_be_updated` flag after feeding a sequence of ticks through
the five-minute logic. -/
def flagAfter (flag : Bool) (l : List Timestamp) : Bool :=
  l.foldl (fun f t => (fiveStep f t).1) flag

/-- The per-tick fire bits of the five-minute logic over a tick sequence. -/
def fireList (flag : Bool) : List Timestamp → List Bool
  | [] => []
  | t :: ts => (fiveStep flag t).2 :: fireList (fiveStep flag t).1 ts

/-- Minute count since the epoch of the month, for ordering ticks and
grouping them into five-minute windows. -/
def absMinute (t : Timestamp) : Nat :=
  (t.day * 24 + t.hour) * 60 + t.minute

/-- Second count since the epoch of the month. -/
def absTime (t : Timestamp) : Nat :=
  absMinute t * 60 + t.second

/-- The five-minute window of a tick: windows group five consecutive minutes
`[5*k, 5*k + 4]`; the refresh is designed to fire on the second minute
(`minute % 5 == 1`) of each window. -/
def window (t : Timestamp) : Nat := absMinute t / 5

/-- Configuration and update-availability facts the loop consults:
`fmgr.get_configuration_value("automatic_updates")` and whether
`upmr.update_available()` reports a version skew. -/
structure Env where
  automatic_updates : Bool
  update_available : Bool
deriving DecidableEq, Repr

/-- The mutable variables of the main loop (lines 135-139). -/
structure LoopState where
  previous_day : Int
  previous_hour : Int
  previous_minute : Int
  data_can_be_updated : Bool
  perform_update_check : Bool
deriving DecidableEq, Repr

/-- Initial state of the loop variables (lines 135-139): the `previous_*`
sentinels are `-1`, both flags are `False`. -/
def initState : LoopState :=
  { previous_day := -1, previous_hour := -1, previous_minute := -1,
    data_can_be_updated := false, perform_update_check := false }

/-- The observable scheduler events of one loop iteration: the daily branch
(line 146), the hourly branch (line 151), the minute branch (line 159), the
window-arming statement (line 164) and the five-minute data refresh
(line 171). -/
structure Events where
  daily : Bool
  hourly : Bool
  minuteTick : Bool
  windowOpen : Bool
  fire : Bool
deriving DecidableEq, Repr

/-- The event record of a tick that triggered nothing. -/
def noEvents : Events :=
  { daily := false, hourly := false, minuteTick := false,
    windowOpen := false, fire := false }

/-- The hour at which automatic updates are checked: `UPDATE_HOUR = 3`
(line 17). -/
def UPDATE_HOUR : Nat := 3

/-- One iteration of the main loop body (lines 142-195) on the scheduler
state.  Field by field:
* `previous_day` / `perform_update_check` — the daily branch, lines 146-148;
* `previous_hour` — the hourly branch, lines 151-156 (its network and time
  calls are modelled on their success path: a failure resets the device);
* `previous_minute` — the minute branch, lines 159-161;
* `data_can_be_updated` — the five-minute logic of lines 164-172 (`fiveStep`);
* the update gate, lines 180-182: when the refresh fired, automatic updates
  are enabled, `perform_update_check` holds (as possibly just set by the
  daily branch) and the hour is `UPDATE_HOUR`, then `update_firmware` runs:
  it resets the device iff a new version is available, and only when it
  returns (versions equal) does line 182 clear `perform_update_check`.
Returns the new state, the events of this tick, and whether the device reset
during the tick. -/
def loopStep (env : Env) (s : LoopState) (t : Timestamp) : LoopState × Events × Bool :=
  let previous_day := if s.previous_day ≠ (t.day : Int) then (t.day : Int) else s.previous_day
  let puc1 := if s.previous_day ≠ (t.day : Int) then true else s.perform_update_check
  let previous_hour := if s.previous_hour ≠ (t.hour : Int) then (t.hour : Int) else s.previous_hour
  let previous_minute := if s.previous_minute ≠ (t.minute : Int) then (t.minute : Int) else s.previous_minute
  let flag := (fiveStep s.data_can_be_updated t).1
  let fired := (fiveStep s.data_can_be_updated t).2
  let gate := fired = true ∧ env.automatic_updates = true ∧ puc1 = true ∧ t.hour = UPDATE_HOUR
  let resets := if gate ∧ env.update_available = true then true else false
  let puc2 := if gate ∧ env.update_available = false then false else puc1
  ( { previous_day := previous_day, previous_hour := previous_hour,
      previous_minute := previous_minute, data_can_be_updated := flag,
      perform_update_check := puc2 },
    { daily := decide (s.previous_day ≠ (t.day : Int)),
      hourly := decide (s.previous_hour ≠ (t.hour : Int)),
      minuteTick := decide (s.previous_minute ≠ (t.minute : Int)),
      windowOpen := armStep s.data_can_be_updated t && !s.data_can_be_updated,
      fire := fired },
    resets )

/-- The event records of the processed ticks: the loop runs until the tick
list is exhausted or the device resets mid-sequence. -/
def runLoop (env : Env) (s : LoopState) : List Timestamp → List Events
  | [] => []
  | t :: ts =>
    if (loopStep env s t).2.2 = true then [(loopStep env s t).2.1]
    else (loopStep env s t).2.1 :: runLoop env (loopStep env s t).1 ts

/-- The externally visible side effects of `exit_if_process_fails` and
`update_firmware`: asset lookups, render calls, resource releases, the touch
wait, file renames and the hard device reset. -/
inductive Eff where
  | getImage (category key : String)
  | drawError (code : String)
  | closeFile
  | closeWlan
  | initTouch
  | waitTouch
  | reset
  | drawUpdateScreen
  | drawUpdateAction (msg : String)
  | renameEff (src dst : String)
deriving DecidableEq, Repr

/-- How a straight-line fragment of the program ends: it falls through to
the caller, a call in it raised an exception (which propagates — there is no
`try`/`finally` in `main.py` below the top level), or `machine.reset()` ran. -/
inductive Outcome where
  | returned
  | raised
  | machineReset
deriving DecidableEq, Repr

/-- A fragment's effect trace together with how it ended. -/
abbrev Proc := List Eff × Outcome

/-- Sequencing of Python statements: the second fragment runs only when the
first fell through (no exception, no reset). -/
def pseq (a b : Proc) : Proc :=
  match a.2 with
  | .returned => (a.1 ++ b.1, b.2)
  | _ => a

/-- One external call: it is attempted (appears in the trace) and either
returns or raises, as the exception oracle `raises` dictates. -/
def call (raises : Eff → Bool) (e : Eff) : Proc :=
  if raises e = true then ([e], .raised) else ([e], .returned)

/-- A statement with no modelled effect. -/
def skip : Proc := ([], .returned)

/-- The exception oracle of a normal run: no external call raises. -/
def noRaise : Eff → Bool := fun _ => false

/-- An exception oracle for a run in which the diagnostic render call
`display_manager.draw_error` raises. -/
def drawRaises : Eff → Bool := fun e =>
  match e with
  | .drawError _ => true
  | _ => false

/-- Lines 34-58, `exit_if_process_fails(error_code, error_text, ...)`.
`error_code is not "OK"` is modelled as string inequality (MicroPython
interns short strings, so identity agrees with equality on these codes).
On a non-OK code the body, in source order: fetch the error QR image, draw
the error screen, close the file manager, close the WLAN manager when one
was passed, and if the code starts with `"1"` set up the touch screen and
poll it until touched; finally `machine.reset()`.  `wlanPassed` records
whether the optional `wlan_manager` argument was given. -/
def exit_if_process_fails (raises : Eff → Bool) (error_code : String) (wlanPassed : Bool) : Proc :=
  if error_code ≠ "OK" then
    pseq (call raises (.getImage "error" error_code)) <|
    pseq (call raises (.drawError error_code)) <|
    pseq (call raises .closeFile) <|
    pseq (if wlanPassed then call raises .closeWlan else skip) <|
    pseq (if error_code.front = '1'
          then pseq (call raises .initTouch) (call raises .waitTouch)
          else skip) <|
    ([Eff.reset], .machineReset)
  else skip

/-- SD-card storage: a map from file names to file contents. -/
def Storage := String → Option String

/-- `os.rename(src, dst)`: afterwards `dst` holds what `src` held and `src`
is gone; every other name is untouched. -/
def renameFile (st : Storage) (src dst : String) : Storage :=
  fun n => if n = dst then st src else if n = src then none else st n

/-- The two renames of the install step (lines 77-78):
`os.rename("main.py", "main_OLD.py")` then
`os.rename("updater.py", "main.py")`. -/
def installRenames (st : Storage) : Storage :=
  renameFile (renameFile st "main.py" "main_OLD.py") "updater.py" "main.py"

/-- The storage states reached during the install step, in order: before any
rename, after the first rename, and after the second rename (one state per
prefix of the two-rename sequence). -/
def installStates (st : Storage) : List Storage :=
  [st, renameFile st "main.py" "main_OLD.py", installRenames st]

/-- The inputs `update_firmware` consumes from its collaborators: the two
version identifiers reported by `update_manager.update_available()` and the
error codes reported by `download_update()` and `verify_update()`. -/
structure UpdateEnv where
  current_version : String
  update_version : String
  download_code : String
  verify_code : String
deriving DecidableEq, Repr

/-- Lines 67-73 of `update_firmware`: draw the update screen, then route the
download and verify outcomes through `exit_if_process_fails` (each with the
WLAN manager passed). -/
def updateChecks (uenv : UpdateEnv) : Proc :=
  pseq (call noRaise (.getImage "symbol" "update")) <|
  pseq (call noRaise .drawUpdateScreen) <|
  pseq (call noRaise (.drawUpdateAction "Downloading update...")) <|
  pseq (exit_if_process_fails noRaise uenv.download_code true) <|
  pseq (call noRaise (.drawUpdateAction "Verifying update...")) <|
  (exit_if_process_fails noRaise uenv.verify_code true)

/-- Lines 60-79, `update_firmware`.  When the two versions reported by
`update_manager.update_available()` differ it runs `updateChecks`, and if
that fell through (both stages reported `"OK"`) it performs the two renames
of the install step and calls `machine.reset()`.  When the versions are
equal the body is skipped and the function returns to its caller.  Returns
the effect trace, how the call ended, and the final storage. -/
def update_firmware (uenv : UpdateEnv) (st : Storage) : List Eff × Outcome × Storage :=
  if uenv.current_version ≠ uenv.update_version then
    match (updateChecks uenv).2 with
    | .returned =>
        ((updateChecks uenv).1 ++
          [Eff.drawUpdateAction "Installing update...",
           Eff.renameEff "main.py" "main_OLD.py",
           Eff.renameEff "updater.py" "main.py", Eff.reset],
         .machineReset, installRenames st)
    | o => ((updateChecks uenv).1, o, st)
  else ([], .returned, st)

/-- A concrete storage holding the two files the install step touches. -/
def sampleStorage : Storage := fun n =>
  if n = "main.py" then some "MAIN"
  else if n = "updater.py" then some "UPDATER" else none

/-! ## Supporting lemmas -/

theorem neg_one_ne_natCast (n : Nat) : (-1 : Int) ≠ (n : Int) := by omega

theorem phase_eq_zero_iff (m : Nat) : phase m = 0 ↔ m % 5 = 1 := by
  unfold phase; omega

theorem absMinute_mod_five (t : Timestamp) : absMinute t % 5 = t.minute % 5 := by
  unfold absMinute; omega

/-- A tick can set the flag only when its phase is nonzero. -/
theorem fiveStep_flag_true {f : Bool} {t : Timestamp}
    (h : (fiveStep f t).1 = true) : f = true ∨ phase t.minute ≠ 0 := by
  unfold fiveStep armStep at h
  split_ifs at h <;> simp_all

/-- A fire needs the flag already set on entry, a nonzero second, and phase
zero. -/
theorem fiveStep_fire {f : Bool} {t : Timestamp}
    (h : (fiveStep f t).2 = true) :
    f = true ∧ 1 ≤ t.second ∧ phase t.minute = 0 := by
  unfold fiveStep armStep at h
  split_ifs at h <;> simp_all

/-- Firing clears the flag. -/
theorem fiveStep_fire_flag {f : Bool} {t : Timestamp}
    (h : (fiveStep f t).2 = true) : (fiveStep f t).1 = false := by
  unfold fiveStep at h ⊢
  split_ifs at h ⊢
  simp_all

/-- From an unset flag, the flag can only become set through a tick whose
phase is nonzero. -/
theorem flagAfter_true :
    ∀ (l : List Timestamp) (f : Bool), flagAfter f l = true →
      f = true ∨ ∃ t ∈ l, phase t.minute ≠ 0 := by
  intro l
  induction l with
  | nil => intro f h; exact Or.inl h
  | cons t ts ih =>
    intro f h
    have h' : flagAfter (fiveStep f t).1 ts = true := h
    rcases ih _ h' with h1 | ⟨u, hu, hp⟩
    · rcases fiveStep_flag_true h1 with h2 | h2
      · exact Or.inl h2
      · exact Or.inr ⟨t, List.mem_cons_self t ts, h2⟩
    · exact Or.inr ⟨u, List.mem_cons_of_mem _ hu, hp⟩

theorem flagAfter_append (f : Bool) (l1 l2 : List Timestamp) :
    flagAfter f (l1 ++ l2) = flagAfter (flagAfter f l1) l2 := by
  unfold flagAfter; exact List.foldl_append _ _ _ _

/-- A tick whose time lies between two ticks of the same absolute minute
shares that minute. -/
theorem absMinute_eq_of_between {a b c : Timestamp}
    (hb : b.Valid) (hc : c.Valid)
    (h1 : absTime a ≤ absTime b) (h2 : absTime b ≤ absTime c)
    (hac : absMinute a = absMinute c) : absMinute b = absMinute a := by
  obtain ⟨-, -, hbs⟩ := hb
  obtain ⟨-, -, hcs⟩ := hc
  unfold absTime at h1 h2
  omega

/-- Re-running the five-minute logic on the same tick changes nothing and
never fires. -/
theorem fiveStep_idem (f : Bool) (t : Timestamp) :
    fiveStep (fiveStep f t).1 t = ((fiveStep f t).1, false) := by
  by_cases hp : phase t.minute = 0 <;> by_cases hf : f = true <;>
    by_cases hs : 1 ≤ t.second <;> simp [fiveStep, armStep, hp, hf, hs]

/-- After a tick is processed, re-processing it cannot open the window
again. -/
theorem armStep_after (f : Bool) (t : Timestamp) :
    (armStep (fiveStep f t).1 t && !(fiveStep f t).1) = false := by
  by_cases hp : phase t.minute = 0 <;> by_cases hf : f = true <;>
    by_cases hs : 1 ≤ t.second <;> simp [fiveStep, armStep, hp, hf, hs]

theorem loopStep_previous_day (env : Env) (s : LoopState) (t : Timestamp) :
    ((loopStep env s t).1).previous_day = (t.day : Int) := by
  simp only [loopStep]
  split_ifs <;> simp_all

theorem loopStep_previous_hour (env : Env) (s : LoopState) (t : Timestamp) :
    ((loopStep env s t).1).previous_hour = (t.hour : Int) := by
  simp only [loopStep]
  split_ifs <;> simp_all

theorem loopStep_previous_minute (env : Env) (s : LoopState) (t : Timestamp) :
    ((loopStep env s t).1).previous_minute = (t.minute : Int) := by
  simp only [loopStep]
  split_ifs <;> simp_all

theorem loopStep_flag (env : Env) (s : LoopState) (t : Timestamp) :
    ((loopStep env s t).1).data_can_be_updated = (fiveStep s.data_can_be_updated t).1 :=
  rfl

theorem loopStep_fire (env : Env) (s : LoopState) (t : Timestamp) :
    ((loopStep env s t).2.1).fire = (fiveStep s.data_can_be_updated t).2 :=
  rfl

/-- On a run in which no call raises, `exit_if_process_fails` either returns
(code `"OK"`) or ends in the device reset. -/
theorem exit_outcome_noRaise (c : String) (w : Bool) :
    (exit_if_process_fails noRaise c w).2 =
      if c = "OK" then Outcome.returned else Outcome.machineReset := by
  unfold exit_if_process_fails
  split_ifs with h h1 h2 <;> simp_all [pseq, call, skip, noRaise]

/-- The full effect trace of `exit_if_process_fails` on a non-OK code when
no call raises. -/
theorem exit_trace_noRaise (c : String) (w : Bool) (h : c ≠ "OK") :
    exit_if_process_fails noRaise c w =
      ([Eff.getImage "error" c, Eff.drawError c, Eff.closeFile]
        ++ (if w then [Eff.closeWlan] else [])
        ++ (if c.front = '1' then [Eff.initTouch, Eff.waitTouch] else [])
        ++ [Eff.reset], Outcome.machineReset) := by
  unfold exit_if_process_fails
  rw [if_pos h]
  split_ifs with h1 h2 <;> simp [pseq, call, skip, noRaise]

theorem mem_pseq_iff {x : Eff} {a b : Proc} :
    x ∈ (pseq a b).1 ↔ x ∈ a.1 ∨ (a.2 = .returned ∧ x ∈ b.1) := by
  obtain ⟨ta, oa⟩ := a
  cases oa <;> simp [pseq]

theorem call_trace (raises : Eff → Bool) (e : Eff) : (call raises e).1 = [e] := by
  unfold call
  split_ifs <;> rfl

/-- No rename ever appears in an `exit_if_process_fails` trace. -/
theorem exit_no_rename (raises : Eff → Bool) (c : String) (w : Bool)
    (a b : String) : Eff.renameEff a b ∉ (exit_if_process_fails raises c w).1 := by
  intro hmem
  unfold exit_if_process_fails at hmem
  split_ifs at hmem <;>
    simp [mem_pseq_iff, call_trace, skip] at hmem

theorem pseq_snd (a b : Proc) :
    (pseq a b).2 = if a.2 = .returned then b.2 else a.2 := by
  obtain ⟨ta, oa⟩ := a
  cases oa <;> simp [pseq]

/-- Outcome of the download/verify stage chain: the first non-OK stage code
turns it into a reset; with both stages OK it falls through. -/
theorem updateChecks_snd (uenv : UpdateEnv) :
    (updateChecks uenv).2 =
      if uenv.download_code = "OK" then
        (if uenv.verify_code = "OK" then Outcome.returned else Outcome.machineReset)
      else Outcome.machineReset := by
  by_cases hdl : uenv.download_code = "OK" <;>
    by_cases hvf : uenv.verify_code = "OK" <;>
      simp [updateChecks, pseq_snd, call, noRaise, exit_outcome_noRaise, hdl, hvf]

/-- The stage chain never renames anything. -/
theorem updateChecks_no_rename (uenv : UpdateEnv) (a b : String) :
    Eff.renameEff a b ∉ (updateChecks uenv).1 := by
  intro h
  simp [updateChecks, mem_pseq_iff, call_trace,
        exit_no_rename noRaise uenv.download_code true a b,
        exit_no_rename noRaise uenv.verify_code true a b] at h

/-- `update_firmware` falls through to its caller exactly when the version
check found no skew; on every other path it ends in `machine.reset()`. -/
theorem update_firmware_outcome (uenv : UpdateEnv) (st : Storage) :
    (update_firmware uenv st).2.1 =
      if uenv.current_version = uenv.update_version
      then Outcome.returned else Outcome.machineReset := by
  unfold update_firmware
  by_cases hv : uenv.current_version = uenv.update_version
  · rw [if_neg (fun hn => hn hv), if_pos hv]
  · rw [if_pos hv, if_neg hv]
    have h2 := updateChecks_snd uenv
    by_cases hdl : uenv.download_code = "OK" <;>
      by_cases hvf : uenv.verify_code = "OK" <;>
        simp_all

/-! ## Claims -/

/-- C3: a call of `exit_if_process_fails` whose error code is `"OK"` is a
no-op: its effect trace is empty — no rendering, no resource release, no
touch wait and no reset — and it returns to the caller at once, whatever
the optional WLAN argument and whatever the external calls would have
done. -/
theorem C3_ok_is_noop (raises : Eff → Bool) (wlanPassed : Bool) :
    exit_if_process_fails raises "OK" wlanPassed = ([], Outcome.returned) :=
  rfl

/-- C1 counterexample: starting from a storage holding both `main.py` and
`updater.py`, the state reached after the first rename of the install step —
one of the states listed by `installStates`, i.e. reached by a proper prefix
of the install sequence — has no `main.py` at all: the primary entry point
is absent at an intermediate point, contrary to the claim. -/
theorem C1_counterexample :
    renameFile sampleStorage "main.py" "main_OLD.py" ∈ installStates sampleStorage ∧
    renameFile sampleStorage "main.py" "main_OLD.py" "main.py" = none := by
  constructor
  · simp [installStates]
  · decide

/-- C1 amended: during the install step the primary entry point is present
before the first rename and again after the second rename (then holding the
staged installer, with the old program preserved as `main_OLD.py`), but in
the single intermediate state between the two renames `main.py` is absent —
a power loss there, not merely mid-rename, leaves storage without a primary
entry point. -/
theorem C1_amended_install_window (st : Storage) (m u : String)
    (hm : st "main.py" = some m) (hu : st "updater.py" = some u) :
    st "main.py" = some m ∧
    renameFile st "main.py" "main_OLD.py" "main.py" = none ∧
    installRenames st "main.py" = some u ∧
    installRenames st "main_OLD.py" = some m := by
  refine ⟨hm, ?_, ?_, ?_⟩ <;>
    simp [installRenames, renameFile, hm, hu]

/-- C1 witness: the amended statement evaluated on a concrete storage
holding `main.py` and `updater.py`. -/
theorem C1_witness :
    sampleStorage "main.py" = some "MAIN" ∧
    renameFile sampleStorage "main.py" "main_OLD.py" "main.py" = none ∧
    installRenames sampleStorage "main.py" = some "UPDATER" ∧
    installRenames sampleStorage "main_OLD.py" = some "MAIN" :=
  C1_amended_install_window sampleStorage "MAIN" "UPDATER" (by decide) (by decide)

/-- C5 counterexample: on error code `"002"` with a WLAN manager passed, if
the diagnostic rendering call raises, the trace stops at the failed render:
neither the file manager nor the WLAN manager is released — the release is
not independent of rendering success, contrary to the claim. -/
theorem C5_counterexample :
    (exit_if_process_fails drawRaises "002" true).1 =
      [Eff.getImage "error" "002", Eff.drawError "002"] ∧
    Eff.closeFile ∉ (exit_if_process_fails drawRaises "002" true).1 ∧
    Eff.closeWlan ∉ (exit_if_process_fails drawRaises "002" true).1 := by
  decide

/-- C5 amended: on a non-OK error signal, when no call raises, the effect
order is: fetch the diagnostic image, render the diagnostic, close the file
manager, close the WLAN manager when one was passed, then — exactly for
codes whose first character is `"1"` — set up the touch screen and block
until touch, and finally reset; but the release is not guaranteed
independent of rendering success: if the rendering call raises, the
resources are not released (the body has no `try`/`finally`) and the
exception propagates. -/
theorem C5_amended_error_path (code : String) (w : Bool) (h : code ≠ "OK") :
    exit_if_process_fails noRaise code w =
      ([Eff.getImage "error" code, Eff.drawError code, Eff.closeFile]
        ++ (if w then [Eff.closeWlan] else [])
        ++ (if code.front = '1' then [Eff.initTouch, Eff.waitTouch] else [])
        ++ [Eff.reset], Outcome.machineReset) ∧
    Eff.closeFile ∉ (exit_if_process_fails drawRaises code w).1 := by
  refine ⟨exit_trace_noRaise code w h, ?_⟩
  unfold exit_if_process_fails
  rw [if_pos h]
  simp [pseq, call, drawRaises]

/-- C6: when a new version was detected and the download stage or the verify
stage reports a non-OK outcome, `update_firmware` performs no rename at all,
leaves the storage exactly as it was before the attempt, and ends in the
device reset raised inside `exit_if_process_fails` — the install step never
runs. -/
theorem C6_failed_stage_no_rename (uenv : UpdateEnv) (st : Storage)
    (hv : uenv.current_version ≠ uenv.update_version)
    (hfail : uenv.download_code ≠ "OK" ∨ uenv.verify_code ≠ "OK") :
    (update_firmware uenv st).2.2 = st ∧
    (∀ a b, Eff.renameEff a b ∉ (update_firmware uenv st).1) ∧
    (update_firmware uenv st).2.1 = Outcome.machineReset := by
  have h2 : (updateChecks uenv).2 = Outcome.machineReset := by
    rw [updateChecks_snd]
    rcases hfail with h | h
    · rw [if_neg h]
    · by_cases hdl : uenv.download_code = "OK"
      · rw [if_pos hdl, if_neg h]
      · rw [if_neg hdl]
  have hfw : update_firmware uenv st =
      ((updateChecks uenv).1, Outcome.machineReset, st) := by
    unfold update_firmware
    rw [if_pos hv, h2]
  rw [hfw]
  exact ⟨rfl, fun a b => updateChecks_no_rename uenv a b, rfl⟩

/-- C6 witness: the theorem evaluated for a concrete failing verify stage
(code `"102"`) on a concrete storage. -/
theorem C6_witness :
    (update_firmware ⟨"1.0", "2.0", "OK", "102"⟩ sampleStorage).2.2 = sampleStorage ∧
    (∀ a b, Eff.renameEff a b ∉ (update_firmware ⟨"1.0", "2.0", "OK", "102"⟩ sampleStorage).1) ∧
    (update_firmware ⟨"1.0", "2.0", "OK", "102"⟩ sampleStorage).2.1 = Outcome.machineReset :=
  C6_failed_stage_no_rename ⟨"1.0", "2.0", "OK", "102"⟩ sampleStorage
    (by decide) (Or.inr (by decide))

/-- C10: `update_firmware` returns control to its caller exactly when the
version check found the current and latest versions equal; whenever a new
version is available every execution path ends in a device reset, so the
statements after the call in the main loop (clearing
`perform_update_check`, refreshing the data) execute only in the no-update
case.  Moreover in the no-update case the call has no effect at all. -/
theorem C10_returns_iff_versions_equal (uenv : UpdateEnv) (st : Storage) :
    ((update_firmware uenv st).2.1 = Outcome.returned ↔
      uenv.current_version = uenv.update_version) ∧
    (uenv.current_version = uenv.update_version →
      update_firmware uenv st = ([], Outcome.returned, st)) := by
  constructor
  · rw [update_firmware_outcome]
    split_ifs with hv <;> simp [hv]
  · intro hv
    unfold update_firmware
    rw [if_neg (fun hn => hn hv)]

/-- C10 witness: with equal versions the call falls through with no effects,
evaluated on concrete inputs. -/
theorem C10_witness :
    update_firmware ⟨"1.0", "1.0", "OK", "OK"⟩ sampleStorage =
      ([], Outcome.returned, sampleStorage) :=
  (C10_returns_iff_versions_equal ⟨"1.0", "1.0", "OK", "OK"⟩ sampleStorage).2 rfl

/-- C5 witness: the amended statement evaluated at code `"101"` with a WLAN
manager passed. -/
theorem C5_witness :
    exit_if_process_fails noRaise "101" true =
      ([Eff.getImage "error" "101", Eff.drawError "101", Eff.closeFile]
        ++ (if true then [Eff.closeWlan] else [])
        ++ (if ("101").front = '1' then [Eff.initTouch, Eff.waitTouch] else [])
        ++ [Eff.reset], Outcome.machineReset) ∧
    Eff.closeFile ∉ (exit_if_process_fails drawRaises "101" true).1 :=
  C5_amended_error_path "101" true (by decide)

/-- C4 counterexample: in a state where the daily flag
`perform_update_check` is armed, a tick at the update hour on which the
five-minute refresh fires and the update check finds the current and latest
versions equal (`update_available = false`) completes without a reset and
leaves `perform_update_check = false`: the flag is cleared by line 182 even
though no update ran, contrary to the claim that it remains true. -/
theorem C4_counterexample :
    ((loopStep ⟨true, false⟩ ⟨2, 3, 1, true, true⟩ ⟨2, 3, 1, 1⟩).2.1).fire = true ∧
    (loopStep ⟨true, false⟩ ⟨2, 3, 1, true, true⟩ ⟨2, 3, 1, 1⟩).2.2 = false ∧
    ((loopStep ⟨true, false⟩ ⟨2, 3, 1, true, true⟩ ⟨2, 3, 1, 1⟩).1).perform_update_check = false := by
  decide

/-- C4 amended: `perform_update_check` is set to true when a new day is
detected, and it is cleared exactly when an update check runs to completion,
i.e. when the gate held and the versions were equal (`update_firmware`
returned); when an update actually runs the device resets inside
`update_firmware`, so line 182 never executes and the flag is still true in
the final state.  In particular, after an update check in which the
versions are equal the flag is false, not true. -/
theorem C4_amended_update_flag (env : Env) (s : LoopState) (t : Timestamp) :
    (((loopStep env s t).1).perform_update_check = false →
      (s.perform_update_check = false ∧ s.previous_day = (t.day : Int)) ∨
      (((loopStep env s t).2.1).fire = true ∧ env.automatic_updates = true ∧
        t.hour = UPDATE_HOUR ∧ env.update_available = false)) ∧
    ((loopStep env s t).2.2 = true →
      ((loopStep env s t).1).perform_update_check = true) ∧
    (((loopStep env s t).2.1).fire = true → env.automatic_updates = true →
      t.hour = UPDATE_HOUR → env.update_available = false →
      (s.previous_day ≠ (t.day : Int) ∨ s.perform_update_check = true) →
      ((loopStep env s t).1).perform_update_check = false) := by
  simp only [loopStep]
  cases hpuc : s.perform_update_check <;> split_ifs <;> simp_all

/-- C4 witness: the amended statement applied at the counterexample input —
an equal-versions check clears the flag. -/
theorem C4_witness :
    ((loopStep ⟨true, false⟩ ⟨2, 3, 1, true, true⟩ ⟨2, 3, 1, 1⟩).1).perform_update_check = false :=
  (C4_amended_update_flag ⟨true, false⟩ ⟨2, 3, 1, true, true⟩ ⟨2, 3, 1, 1⟩).2.2
    (by decide) rfl rfl rfl (Or.inr rfl)

/-- C8: on the first tick after boot, whatever the timestamp and the
configuration, the daily, hourly and minute branches all trigger (the `-1`
sentinels differ from every cast field value) and the five-minute refresh
does not (the window flag starts unarmed and cannot be armed and consumed
on one tick, since arming needs a nonzero phase and firing a zero phase). -/
theorem C8_first_tick (env : Env) (t : Timestamp) :
    ((loopStep env initState t).2.1).daily = true ∧
    ((loopStep env initState t).2.1).hourly = true ∧
    ((loopStep env initState t).2.1).minuteTick = true ∧
    ((loopStep env initState t).2.1).fire = false := by
  have hfire : (fiveStep false t).2 = false := by
    by_cases hp : phase t.minute = 0 <;> simp [fiveStep, armStep, hp]
  refine ⟨?_, ?_, ?_, ?_⟩ <;>
    simp [loopStep, initState, hfire, neg_one_ne_natCast]

/-- C9: processing the same timestamp a second time immediately after the
first is a no-op: the state is unchanged and no event at all — daily,
hourly, minute, window-open or five-minute fire — is produced on the second
application, and no reset is triggered by it. -/
theorem C9_idempotent (env : Env) (s : LoopState) (t : Timestamp) :
    loopStep env (loopStep env s t).1 t = ((loopStep env s t).1, noEvents, false) := by
  generalize hs : (loopStep env s t).1 = s'
  have hd : s'.previous_day = (t.day : Int) := by
    rw [← hs]; exact loopStep_previous_day env s t
  have hh : s'.previous_hour = (t.hour : Int) := by
    rw [← hs]; exact loopStep_previous_hour env s t
  have hm : s'.previous_minute = (t.minute : Int) := by
    rw [← hs]; exact loopStep_previous_minute env s t
  have hf : s'.data_can_be_updated = (fiveStep s.data_can_be_updated t).1 := by
    rw [← hs]; exact loopStep_flag env s t
  have h5 : fiveStep s'.data_can_be_updated t = (s'.data_can_be_updated, false) := by
    rw [hf, fiveStep_idem]
  have harm : (armStep s'.data_can_be_updated t && !s'.data_can_be_updated) = false := by
    rw [hf]; exact armStep_after s.data_can_be_updated t
  simp [loopStep, noEvents, hd, hh, hm, h5, harm]
  rw [← hd, ← hh, ← hm]

/-- C2 counterexample: from the unarmed state, the tick sequence
minute=3,second=0 then minute=6,second=1 (valid, time-ordered) makes the
five-minute refresh fire on the second tick, although no prior tick lies in
that tick's 5-minute window (the only prior tick is in the previous
window): the claim that a fire needs a prior nonzero-phase tick in the same
window fails. -/
theorem C2_counterexample :
    (fiveStep (flagAfter false [⟨1, 0, 3, 0⟩]) ⟨1, 0, 6, 1⟩).2 = true ∧
    window ⟨1, 0, 3, 0⟩ ≠ window ⟨1, 0, 6, 1⟩ ∧
    (⟨1, 0, 3, 0⟩ : Timestamp).Valid ∧ (⟨1, 0, 6, 1⟩ : Timestamp).Valid ∧
    absTime ⟨1, 0, 3, 0⟩ ≤ absTime ⟨1, 0, 6, 1⟩ := by
  decide

/-- C2 amended: over any valid, time-ordered tick sequence processed from
the unarmed state, the five-minute refresh fires at most once per 5-minute
window (two fires always land in distinct windows), and it fires only if
some earlier tick — possibly in an earlier window, not necessarily in the
same one — had nonzero phase: a nonzero-phase tick arms
`data_can_be_updated`, and a tick with phase zero, second at least 1 and
the flag armed fires and disarms. -/
theorem C2_amended_five_minute_fire (l1 l2 : List Timestamp) (t1 t2 : Timestamp)
    (hv : ∀ t ∈ l1 ++ t1 :: l2 ++ [t2], t.Valid)
    (hmono : (l1 ++ t1 :: l2 ++ [t2]).Pairwise fun a b => absTime a ≤ absTime b)
    (h1 : (fiveStep (flagAfter false l1) t1).2 = true)
    (h2 : (fiveStep (flagAfter false (l1 ++ t1 :: l2)) t2).2 = true) :
    window t1 ≠ window t2 ∧ ∃ t ∈ l1, phase t.minute ≠ 0 := by
  obtain ⟨hf1, hs1, hp1⟩ := fiveStep_fire h1
  obtain ⟨hf2, hs2, hp2⟩ := fiveStep_fire h2
  have part2 : ∃ t ∈ l1, phase t.minute ≠ 0 := by
    rcases flagAfter_true l1 false hf1 with hcontra | hok
    · exact absurd hcontra (by simp)
    · exact hok
  refine ⟨?_, part2⟩
  intro hw
  -- the flag is consumed by the fire at t1 …
  have hA : flagAfter false (l1 ++ [t1]) = false := by
    rw [flagAfter_append]
    exact fiveStep_fire_flag h1
  -- … so the fire at t2 needs a re-arming tick inside l2
  have hB : flagAfter false (l1 ++ t1 :: l2) = flagAfter false l2 := by
    have hsplit : l1 ++ t1 :: l2 = (l1 ++ [t1]) ++ l2 := by simp
    rw [hsplit, flagAfter_append, hA]
  rw [hB] at hf2
  rcases flagAfter_true l2 false hf2 with hcontra | ⟨u, hu, hpu⟩
  · exact absurd hcontra (by simp)
  -- ordering facts from the pairwise hypothesis
  -- (the list parses as (l1 ++ (t1 :: l2)) ++ [t2])
  rw [List.pairwise_append] at hmono
  obtain ⟨hfront, -, hcross⟩ := hmono
  have ord2 : absTime u ≤ absTime t2 :=
    hcross u (List.mem_append_right _ (List.mem_cons_of_mem _ hu)) t2
      (List.mem_singleton.mpr rfl)
  rw [List.pairwise_append] at hfront
  obtain ⟨-, hcons, -⟩ := hfront
  rw [List.pairwise_cons] at hcons
  obtain ⟨ht1all, -⟩ := hcons
  have ord1 : absTime t1 ≤ absTime u := ht1all u hu
  -- validity of the arming tick and of t2
  have hvu : u.Valid := hv u (by
    exact List.mem_append_left _ (List.mem_append_right _ (List.mem_cons_of_mem _ hu)))
  have hvt2 : t2.Valid := hv t2 (by
    exact List.mem_append_right _ (List.mem_singleton.mpr rfl))
  -- both fire ticks sit on the fire minute of the same window
  have hm1 : absMinute t1 % 5 = 1 := by
    rw [absMinute_mod_five]
    exact (phase_eq_zero_iff _).mp hp1
  have hm2 : absMinute t2 % 5 = 1 := by
    rw [absMinute_mod_five]
    exact (phase_eq_zero_iff _).mp hp2
  have heq : absMinute t1 = absMinute t2 := by
    unfold window at hw
    omega
  -- hence the arming tick shares that very minute — but then its phase is 0
  have humin : absMinute u = absMinute t1 :=
    absMinute_eq_of_between hvu hvt2 ord1 ord2 heq
  refine hpu ((phase_eq_zero_iff _).mpr ?_)
  have h5u := absMinute_mod_five u
  have h5t1 := absMinute_mod_five t1
  omega

/-- C2 witness: the amended statement applied to a concrete four-tick
sequence with two fires, in windows 288 and 289. -/
theorem C2_witness :
    window (⟨1, 0, 1, 1⟩ : Timestamp) ≠ window (⟨1, 0, 6, 1⟩ : Timestamp) ∧
    ∃ t ∈ [(⟨1, 0, 0, 0⟩ : Timestamp)], phase t.minute ≠ 0 :=
  C2_amended_five_minute_fire [⟨1, 0, 0, 0⟩] [⟨1, 0, 3, 0⟩] ⟨1, 0, 1, 1⟩ ⟨1, 0, 6, 1⟩
    (by decide) (by decide) (by decide) (by decide)

/-- C7: for the tick sequence minute=0,second=0 then minute=1,second=1 then
minute=1,second=2, starting unarmed, the five-minute refresh fires exactly
once — on the first minute=1 tick with second at least 1 and not on the
following tick of the same minute.  This holds for the five-minute logic in
isolation (`fireList`) and for the full loop from the boot state
(`runLoop`), where the shorter second alternative occurs exactly when the
fire tick triggers an actual update and the device resets before the third
tick is processed. -/
theorem C7_fires_exactly_once (env : Env) (d hr : Nat) :
    fireList false [⟨d, hr, 0, 0⟩, ⟨d, hr, 1, 1⟩, ⟨d, hr, 1, 2⟩] = [false, true, false] ∧
    ((runLoop env initState [⟨d, hr, 0, 0⟩, ⟨d, hr, 1, 1⟩, ⟨d, hr, 1, 2⟩]).map Events.fire
        = [false, true, false] ∨
      (runLoop env initState [⟨d, hr, 0, 0⟩, ⟨d, hr, 1, 1⟩, ⟨d, hr, 1, 2⟩]).map Events.fire
        = [false, true]) := by
  have e1 : ∀ a k : Nat, fiveStep false ⟨a, k, 0, 0⟩ = (true, false) := fun a k => rfl
  have e2 : ∀ a k : Nat, fiveStep true ⟨a, k, 1, 1⟩ = (false, true) := fun a k => rfl
  have e3 : ∀ a k : Nat, fiveStep false ⟨a, k, 1, 2⟩ = (false, false) := fun a k => rfl
  constructor
  · simp [fireList, e1, e2, e3]
  · have hp1 : phase 1 = 0 := by decide
    have st1 : loopStep env initState ⟨d, hr, 0, 0⟩ =
        ({ previous_day := (d : Int), previous_hour := (hr : Int), previous_minute := 0,
           data_can_be_updated := true, perform_update_check := true },
         { daily := true, hourly := true, minuteTick := true,
           windowOpen := true, fire := false },
         false) := by
      simp [loopStep, initState, e1, neg_one_ne_natCast, armStep, phase]
    have st3 : ∀ b : Bool,
        loopStep env ⟨(d : Int), (hr : Int), 1, false, b⟩ ⟨d, hr, 1, 2⟩ =
          (⟨(d : Int), (hr : Int), 1, false, b⟩, noEvents, false) := by
      intro b
      simp [loopStep, noEvents, e3, armStep, hp1]
    by_cases hauto : env.automatic_updates = true
    · by_cases hh3 : hr = UPDATE_HOUR
      · by_cases hav : env.update_available = true
        · have st2 : loopStep env ⟨(d : Int), (hr : Int), 0, true, true⟩ ⟨d, hr, 1, 1⟩ =
              (⟨(d : Int), (hr : Int), 1, false, true⟩,
               { daily := false, hourly := false, minuteTick := true,
                 windowOpen := false, fire := true },
               true) := by
            simp [loopStep, e2, armStep, hp1, hauto, hh3, hav]
          refine Or.inr ?_
          simp [runLoop, st1, st2]
        · have st2 : loopStep env ⟨(d : Int), (hr : Int), 0, true, true⟩ ⟨d, hr, 1, 1⟩ =
              (⟨(d : Int), (hr : Int), 1, false, false⟩,
               { daily := false, hourly := false, minuteTick := true,
                 windowOpen := false, fire := true },
               false) := by
            simp [loopStep, e2, armStep, hp1, hauto, hh3, hav]
          refine Or.inl ?_
          simp [runLoop, st1, st2, st3, noEvents]
      · have st2 : loopStep env ⟨(d : Int), (hr : Int), 0, true, true⟩ ⟨d, hr, 1, 1⟩ =
            (⟨(d : Int), (hr : Int), 1, false, true⟩,
             { daily := false, hourly := false, minuteTick := true,
               windowOpen := false, fire := true },
             false) := by
          simp [loopStep, e2, armStep, hp1, hh3]
        refine Or.inl ?_
        simp [runLoop, st1, st2, st3, noEvents]
    · have st2 : loopStep env ⟨(d : Int), (hr : Int), 0, true, true⟩ ⟨d, hr, 1, 1⟩ =
          (⟨(d : Int), (hr : Int), 1, false, true⟩,
           { daily := false, hourly := false, minuteTick := true,
             windowOpen := false, fire := true },
           false) := by
        simp [loopStep, e2, armStep, hp1, hauto]
      refine Or.inl ?_
      simp [runLoop, st1, st2, st3, noEvents]

end IotDashboard
